import Mathlib

/-!
Shallow embedding of `src/build/native/include/WebView2ExperimentalEnvironmentOptions.h`:
the port-range policy store of `CoreWebView2ExperimentalEnvironmentOptionsBase`
(`SetAllowedPortRange`, `GetEffectiveAllowedPortRange`, `IsValidPortConfig`,
`MakePortConfigKey` and the `port_configs_` map).

Modelling conventions:
- The C++ `INT32` is modelled as `Int` (no arithmetic is performed on ports,
  only comparisons, so no overflow reduction is needed).
- The C++ enums are passed across the COM boundary as integers and the code
  defends against out-of-range values, so `scope` and `protocol` are modelled
  as raw `Int` values together with the named enumerator constants.
  `COREWEBVIEW2_ALLOWED_PORT_RANGE_SCOPE_DEFAULT = 0` and
  `..._WEB_RTC = 1` are documented in the source (comment at line 60);
  the protocol enum's single recognized enumerator is modelled as `0`
  (its numeric value is never observable: the code only compares
  `protocol` for equality with the constant and reuses the argument in keys).
- `std::map<Key, Range> port_configs_` is modelled extensionally as
  `Key → Option Range` (absence = `none`), the standard abstraction of a
  finite map with unique keys; `operator[]` assignment is pointwise update.
- The `INT32*` output parameters of `GetEffectiveAllowedPortRange` are
  modelled as `Option Int`: `none` is a null pointer, `some v` a valid
  pointer whose pointee currently holds `v`.  The function returns the
  final pointee states, so "the code did not write" is visible as the
  output equalling the input.
- `HRESULT` is modelled by the two values the code actually returns.
- The methods thread the map explicitly; `GetEffectiveAllowedPortRange`
  returns the map it was given at every exit, mirroring that the C++ body
  only ever calls `find` on `port_configs_`.
-/

namespace WebView2



/-- `COREWEBVIEW2_ALLOWED_PORT_RANGE_SCOPE_DEFAULT` (source comment: DEFAULT=0). -/
def COREWEBVIEW2_ALLOWED_PORT_RANGE_SCOPE_DEFAULT : Int := 0

/-- `COREWEBVIEW2_ALLOWED_PORT_RANGE_SCOPE_WEB_RTC` (source comment: WEB_RTC=1). -/
def COREWEBVIEW2_ALLOWED_PORT_RANGE_SCOPE_WEB_RTC : Int := 1

/-- `COREWEBVIEW2_TRANSPORT_PROTOCOL_KIND_UDP`, the single recognized protocol
enumerator.  Its numeric value is not observable by any behavior in the file. -/
def COREWEBVIEW2_TRANSPORT_PROTOCOL_KIND_UDP : Int := 0

/-- The two HRESULT values produced by the file: `S_OK` and `E_INVALIDARG`. -/
inductive HRESULT where
  | S_OK : HRESULT
  | E_INVALIDARG : HRESULT
deriving DecidableEq, Repr

/-- Key of `port_configs_`: `std::pair<scope, protocol>`. -/
abbrev PortConfigKey := Int × Int

/-- Stored value: `std::pair<Int, Int>` = (minPort, maxPort). -/
abbrev PortRange := Int × Int

/-- `std::map<PortConfigKey, PortRange> port_configs_`, extensionally. -/
abbrev PortConfigs := PortConfigKey → Option PortRange

/-- The freshly constructed store: `port_configs_` is an empty map. -/
def emptyPortConfigs : PortConfigs := fun _ => none

/-- `MakePortConfigKey` (header lines 104-110): builds the map key. -/
def MakePortConfigKey (scope protocol : Int) : PortConfigKey :=
  (scope, protocol)

/-- `kMinValidPort` (header line 136). -/
def kMinValidPort : Int := 1025

/-- `kMaxValidPort` (header line 137). -/
def kMaxValidPort : Int := 65535

/-- `IsValidPortConfig` (header lines 114-152), early returns rendered as an
if-chain in source order. -/
def IsValidPortConfig (scope protocol minPort maxPort : Int) : Bool :=
  if scope ≠ COREWEBVIEW2_ALLOWED_PORT_RANGE_SCOPE_DEFAULT ∧
      scope ≠ COREWEBVIEW2_ALLOWED_PORT_RANGE_SCOPE_WEB_RTC then
    false
  else if protocol ≠ COREWEBVIEW2_TRANSPORT_PROTOCOL_KIND_UDP then
    false
  else if minPort = 0 ∧ maxPort = 0 then
    true
  else if minPort < kMinValidPort ∨ minPort > kMaxValidPort then
    false
  else if maxPort < kMinValidPort ∨ maxPort > kMaxValidPort then
    false
  else if minPort > maxPort then
    false
  else
    true

/-- Result of `SetAllowedPortRange`: the HRESULT and the map afterwards. -/
structure SetResult where
  hr : HRESULT
  port_configs : PortConfigs

/-- `SetAllowedPortRange` (header lines 36-52): validate, then
`port_configs_[key] = std::make_pair(minPort, maxPort)`. -/
def SetAllowedPortRange (scope protocol minPort maxPort : Int)
    (port_configs : PortConfigs) : SetResult :=
  if !IsValidPortConfig scope protocol minPort maxPort then
    ⟨HRESULT.E_INVALIDARG, port_configs⟩
  else
    let key := MakePortConfigKey scope protocol
    ⟨HRESULT.S_OK,
     fun k => if k = key then some (minPort, maxPort) else port_configs k⟩

/-- Result of `GetEffectiveAllowedPortRange`: the HRESULT, the final pointee
states of the two output pointers, and the map afterwards. -/
structure GetResult where
  hr : HRESULT
  minPort : Option Int
  maxPort : Option Int
  port_configs : PortConfigs

/-- `GetEffectiveAllowedPortRange` (header lines 54-101): validate enums and
output pointers, then two-level lookup (exact key, then Default-scope key),
else the `(0, 0)` sentinel. -/
def GetEffectiveAllowedPortRange (scope protocol : Int)
    (minPort maxPort : Option Int) (port_configs : PortConfigs) : GetResult :=
  if scope ≠ COREWEBVIEW2_ALLOWED_PORT_RANGE_SCOPE_DEFAULT ∧
      scope ≠ COREWEBVIEW2_ALLOWED_PORT_RANGE_SCOPE_WEB_RTC then
    ⟨HRESULT.E_INVALIDARG, minPort, maxPort, port_configs⟩
  else if protocol ≠ COREWEBVIEW2_TRANSPORT_PROTOCOL_KIND_UDP then
    ⟨HRESULT.E_INVALIDARG, minPort, maxPort, port_configs⟩
  else if minPort = none ∨ maxPort = none then
    ⟨HRESULT.E_INVALIDARG, minPort, maxPort, port_configs⟩
  else
    match port_configs (MakePortConfigKey scope protocol) with
    | some r => ⟨HRESULT.S_OK, some r.1, some r.2, port_configs⟩
    | none =>
      match port_configs
          (MakePortConfigKey COREWEBVIEW2_ALLOWED_PORT_RANGE_SCOPE_DEFAULT
            protocol) with
      | some r => ⟨HRESULT.S_OK, some r.1, some r.2, port_configs⟩
      | none => ⟨HRESULT.S_OK, some 0, some 0, port_configs⟩

end WebView2

namespace WebView2

/-! ### Helper lemmas about the validation predicate -/

/-- Characterization of `IsValidPortConfig` returning `false`, in the terms the
spec uses for the error conditions. -/
theorem isValidPortConfig_eq_false_iff (scope protocol minPort maxPort : Int) :
    IsValidPortConfig scope protocol minPort maxPort = false ↔
      ¬(scope = COREWEBVIEW2_ALLOWED_PORT_RANGE_SCOPE_DEFAULT ∨
          scope = COREWEBVIEW2_ALLOWED_PORT_RANGE_SCOPE_WEB_RTC) ∨
      protocol ≠ COREWEBVIEW2_TRANSPORT_PROTOCOL_KIND_UDP ∨
      (¬(minPort = 0 ∧ maxPort = 0) ∧
        (minPort < 1025 ∨ 65535 < minPort ∨
          maxPort < 1025 ∨ 65535 < maxPort ∨ maxPort < minPort)) := by
  unfold IsValidPortConfig kMinValidPort kMaxValidPort
    COREWEBVIEW2_ALLOWED_PORT_RANGE_SCOPE_DEFAULT
    COREWEBVIEW2_ALLOWED_PORT_RANGE_SCOPE_WEB_RTC
    COREWEBVIEW2_TRANSPORT_PROTOCOL_KIND_UDP
  split_ifs with h1 h2 h3 h4 h5 h6 <;> simp_all <;> omega

/-- If the enums are recognized and the ports form a valid non-sentinel range,
validation succeeds. -/
theorem isValidPortConfig_eq_true_of_range (scope protocol minPort maxPort : Int)
    (hs : scope = COREWEBVIEW2_ALLOWED_PORT_RANGE_SCOPE_DEFAULT ∨
          scope = COREWEBVIEW2_ALLOWED_PORT_RANGE_SCOPE_WEB_RTC)
    (hp : protocol = COREWEBVIEW2_TRANSPORT_PROTOCOL_KIND_UDP)
    (h1 : 1025 ≤ minPort) (h2 : minPort ≤ maxPort) (h3 : maxPort ≤ 65535) :
    IsValidPortConfig scope protocol minPort maxPort = true := by
  unfold IsValidPortConfig kMinValidPort kMaxValidPort
  simp only [COREWEBVIEW2_ALLOWED_PORT_RANGE_SCOPE_DEFAULT,
    COREWEBVIEW2_ALLOWED_PORT_RANGE_SCOPE_WEB_RTC,
    COREWEBVIEW2_TRANSPORT_PROTOCOL_KIND_UDP] at hs hp ⊢
  split_ifs with ha hb hc hd he hf <;> simp_all <;> omega

/-- If the enums are recognized, the sentinel write `(0, 0)` always validates. -/
theorem isValidPortConfig_sentinel (scope protocol : Int)
    (hs : scope = COREWEBVIEW2_ALLOWED_PORT_RANGE_SCOPE_DEFAULT ∨
          scope = COREWEBVIEW2_ALLOWED_PORT_RANGE_SCOPE_WEB_RTC)
    (hp : protocol = COREWEBVIEW2_TRANSPORT_PROTOCOL_KIND_UDP) :
    IsValidPortConfig scope protocol 0 0 = true := by
  unfold IsValidPortConfig
  simp only [COREWEBVIEW2_ALLOWED_PORT_RANGE_SCOPE_DEFAULT,
    COREWEBVIEW2_ALLOWED_PORT_RANGE_SCOPE_WEB_RTC,
    COREWEBVIEW2_TRANSPORT_PROTOCOL_KIND_UDP] at hs hp ⊢
  split_ifs with ha hb <;> simp_all

/-- Whatever validation accepts is the sentinel or a well-formed range. -/
theorem isValidPortConfig_range_ok (scope protocol minPort maxPort : Int)
    (h : IsValidPortConfig scope protocol minPort maxPort = true) :
    (minPort, maxPort) = ((0 : Int), (0 : Int)) ∨
      (1025 ≤ minPort ∧ minPort ≤ maxPort ∧ maxPort ≤ 65535) := by
  unfold IsValidPortConfig kMinValidPort kMaxValidPort at h
  split_ifs at h with h1 h2 h3 h4 h5 h6 <;> simp_all

/-! ### Helper lemmas about the two operations -/

/-- When validation fails, `SetAllowedPortRange` takes the error exit. -/
theorem setAllowedPortRange_of_invalid (scope protocol minPort maxPort : Int)
    (t : PortConfigs)
    (h : IsValidPortConfig scope protocol minPort maxPort = false) :
    SetAllowedPortRange scope protocol minPort maxPort t =
      ⟨HRESULT.E_INVALIDARG, t⟩ := by
  unfold SetAllowedPortRange
  simp [h]

/-- When validation succeeds, `SetAllowedPortRange` stores the pair at the key. -/
theorem setAllowedPortRange_of_valid (scope protocol minPort maxPort : Int)
    (t : PortConfigs)
    (h : IsValidPortConfig scope protocol minPort maxPort = true) :
    SetAllowedPortRange scope protocol minPort maxPort t =
      ⟨HRESULT.S_OK,
        fun k => if k = (scope, protocol) then some (minPort, maxPort)
          else t k⟩ := by
  unfold SetAllowedPortRange MakePortConfigKey
  simp [h]

end WebView2

namespace WebView2

/-! ### Spec-side definition for the resolution claim -/

/-- The resolution algorithm exactly as the spec words it (section 4.1,
`GetEffectiveRange`): step 1 the exact key, step 2 the `(Default, protocol)`
key, step 3 the sentinel `(0, 0)`.  Written from the spec, to be compared
with the embedding of the source. -/
def specEffectiveRange (t : PortConfigs) (scope protocol : Int) : PortRange :=
  match t (scope, protocol) with
  | some r => r
  | none =>
    match t (COREWEBVIEW2_ALLOWED_PORT_RANGE_SCOPE_DEFAULT, protocol) with
    | some r => r
    | none => (0, 0)

/-! ### Concrete tables used by witnesses -/

/-- A table holding `(2000, 3000)` for the `(Default, Udp)` key only. -/
def defaultTable2000 : PortConfigs :=
  fun k =>
    if k = (COREWEBVIEW2_ALLOWED_PORT_RANGE_SCOPE_DEFAULT,
        COREWEBVIEW2_TRANSPORT_PROTOCOL_KIND_UDP) then
      some (2000, 3000)
    else
      none

/-! ### Claim theorems -/

/-- Shared resolution lemma: on validated inputs the source's
`GetEffectiveAllowedPortRange` coincides with the spec's resolution
algorithm and leaves the table alone. -/
theorem getEffective_resolution_aux (scope protocol m0 M0 : Int)
    (t : PortConfigs)
    (hs : scope = COREWEBVIEW2_ALLOWED_PORT_RANGE_SCOPE_DEFAULT ∨
          scope = COREWEBVIEW2_ALLOWED_PORT_RANGE_SCOPE_WEB_RTC)
    (hp : protocol = COREWEBVIEW2_TRANSPORT_PROTOCOL_KIND_UDP) :
    GetEffectiveAllowedPortRange scope protocol (some m0) (some M0) t =
      ⟨HRESULT.S_OK, some (specEffectiveRange t scope protocol).1,
        some (specEffectiveRange t scope protocol).2, t⟩ := by
  unfold GetEffectiveAllowedPortRange specEffectiveRange MakePortConfigKey
  rw [if_neg (by tauto), if_neg (by simp [hp]), if_neg (by simp)]
  cases h1 : t (scope, protocol) with
  | some r => simp [h1]
  | none =>
    cases h2 : t (COREWEBVIEW2_ALLOWED_PORT_RANGE_SCOPE_DEFAULT, protocol) with
    | some r => simp [h1, h2]
    | none => simp [h1, h2]

/-- Shared purity lemma: `GetEffectiveAllowedPortRange` returns the table it
was given on every code path. -/
theorem getEffective_pure_aux (scope protocol : Int)
    (minPort maxPort : Option Int) (t : PortConfigs) :
    (GetEffectiveAllowedPortRange scope protocol minPort maxPort
      t).port_configs = t := by
  unfold GetEffectiveAllowedPortRange
  split_ifs <;> try rfl
  cases h1 : t (MakePortConfigKey scope protocol) with
  | some r => simp [h1]
  | none =>
    cases h2 : t (MakePortConfigKey
        COREWEBVIEW2_ALLOWED_PORT_RANGE_SCOPE_DEFAULT protocol) with
    | some r => simp [h1, h2]
    | none => simp [h1, h2]

/-- C1: for every scope and protocol that pass enum validation and non-null
output destinations, `GetEffectiveAllowedPortRange` never fails and returns
exactly the spec's three-step resolution: the stored range for
`(scope, protocol)` if present, else the stored range for
`(Default, protocol)` if present, else the sentinel `(0, 0)`;
the table is untouched. -/
theorem getEffectiveAllowedPortRange_resolution (scope protocol m0 M0 : Int)
    (t : PortConfigs)
    (hs : scope = COREWEBVIEW2_ALLOWED_PORT_RANGE_SCOPE_DEFAULT ∨
          scope = COREWEBVIEW2_ALLOWED_PORT_RANGE_SCOPE_WEB_RTC)
    (hp : protocol = COREWEBVIEW2_TRANSPORT_PROTOCOL_KIND_UDP) :
    GetEffectiveAllowedPortRange scope protocol (some m0) (some M0) t =
      ⟨HRESULT.S_OK, some (specEffectiveRange t scope protocol).1,
        some (specEffectiveRange t scope protocol).2, t⟩ :=
  getEffective_resolution_aux scope protocol m0 M0 t hs hp

/-- C1 witness: a concrete valid query against a table that only configures
the Default scope resolves through the fallback step. -/
theorem getEffectiveAllowedPortRange_resolution_witness :
    GetEffectiveAllowedPortRange 1 0 (some 7) (some 8) defaultTable2000 =
      ⟨HRESULT.S_OK, some 2000, some 3000, defaultTable2000⟩ := by
  have h := getEffectiveAllowedPortRange_resolution 1 0 7 8 defaultTable2000
    (by decide) rfl
  rw [h]
  rfl

/-- C2: `SetAllowedPortRange` fails with `E_INVALIDARG` exactly when the scope
is unrecognized, or the protocol is unrecognized, or the ports are not the
`(0, 0)` sentinel and violate `1025 ≤ minPort ≤ maxPort ≤ 65535`; in every
other case it succeeds with `S_OK`. -/
theorem setAllowedPortRange_invalidarg_iff
    (scope protocol minPort maxPort : Int) (t : PortConfigs) :
    ((SetAllowedPortRange scope protocol minPort maxPort t).hr =
        HRESULT.E_INVALIDARG ↔
      ¬(scope = COREWEBVIEW2_ALLOWED_PORT_RANGE_SCOPE_DEFAULT ∨
          scope = COREWEBVIEW2_ALLOWED_PORT_RANGE_SCOPE_WEB_RTC) ∨
      protocol ≠ COREWEBVIEW2_TRANSPORT_PROTOCOL_KIND_UDP ∨
      (¬(minPort = 0 ∧ maxPort = 0) ∧
        (minPort < 1025 ∨ 65535 < minPort ∨
          maxPort < 1025 ∨ 65535 < maxPort ∨ maxPort < minPort))) ∧
    ((SetAllowedPortRange scope protocol minPort maxPort t).hr = HRESULT.S_OK ↔
      ¬(¬(scope = COREWEBVIEW2_ALLOWED_PORT_RANGE_SCOPE_DEFAULT ∨
          scope = COREWEBVIEW2_ALLOWED_PORT_RANGE_SCOPE_WEB_RTC) ∨
        protocol ≠ COREWEBVIEW2_TRANSPORT_PROTOCOL_KIND_UDP ∨
        (¬(minPort = 0 ∧ maxPort = 0) ∧
          (minPort < 1025 ∨ 65535 < minPort ∨
            maxPort < 1025 ∨ 65535 < maxPort ∨ maxPort < minPort)))) := by
  have hmain : (SetAllowedPortRange scope protocol minPort maxPort t).hr =
      HRESULT.E_INVALIDARG ↔
      IsValidPortConfig scope protocol minPort maxPort = false := by
    unfold SetAllowedPortRange
    cases hv : IsValidPortConfig scope protocol minPort maxPort <;> simp [hv]
  constructor
  · exact hmain.trans
      (isValidPortConfig_eq_false_iff scope protocol minPort maxPort)
  · have hok : (SetAllowedPortRange scope protocol minPort maxPort t).hr =
        HRESULT.S_OK ↔
        ¬((SetAllowedPortRange scope protocol minPort maxPort t).hr =
          HRESULT.E_INVALIDARG) := by
      cases (SetAllowedPortRange scope protocol minPort maxPort t).hr <;> simp
    rw [hok]
    exact not_congr (hmain.trans
      (isValidPortConfig_eq_false_iff scope protocol minPort maxPort))

/-- C8: `SetAllowedPortRange` is idempotent: a second call with identical
arguments returns the same HRESULT and leaves the table exactly as the first
call left it. -/
theorem setAllowedPortRange_idempotent
    (scope protocol minPort maxPort : Int) (t : PortConfigs) :
    SetAllowedPortRange scope protocol minPort maxPort
      (SetAllowedPortRange scope protocol minPort maxPort t).port_configs =
      SetAllowedPortRange scope protocol minPort maxPort t := by
  cases hv : IsValidPortConfig scope protocol minPort maxPort
  · simp [setAllowedPortRange_of_invalid _ _ _ _ _ hv]
  · simp only [setAllowedPortRange_of_valid _ _ _ _ _ hv]
    congr 1
    funext k
    by_cases hk : k = (scope, protocol) <;> simp [hk]

/-- C9: `GetEffectiveAllowedPortRange` is a pure read: for every input,
valid or not, the table afterwards is the table it was given. -/
theorem getEffectiveAllowedPortRange_pure (scope protocol : Int)
    (minPort maxPort : Option Int) (t : PortConfigs) :
    (GetEffectiveAllowedPortRange scope protocol minPort maxPort
      t).port_configs = t :=
  getEffective_pure_aux scope protocol minPort maxPort t

end WebView2

namespace WebView2

/-- A table holding `(4000, 5000)` for the `(WebRtcOnly, Udp)` key only. -/
def webRtcTable4000 : PortConfigs :=
  fun k =>
    if k = (COREWEBVIEW2_ALLOWED_PORT_RANGE_SCOPE_WEB_RTC,
        COREWEBVIEW2_TRANSPORT_PROTOCOL_KIND_UDP) then
      some (4000, 5000)
    else
      none

/-- C3: for every recognized (scope, protocol), every valid non-sentinel range
`1025 ≤ minPort ≤ maxPort ≤ 65535` and any prior table, a successful write
followed by a read of the same key yields exactly the written range. -/
theorem setAllowedPortRange_roundtrip
    (scope protocol minPort maxPort m0 M0 : Int) (t : PortConfigs)
    (hs : scope = COREWEBVIEW2_ALLOWED_PORT_RANGE_SCOPE_DEFAULT ∨
          scope = COREWEBVIEW2_ALLOWED_PORT_RANGE_SCOPE_WEB_RTC)
    (hp : protocol = COREWEBVIEW2_TRANSPORT_PROTOCOL_KIND_UDP)
    (h1 : 1025 ≤ minPort) (h2 : minPort ≤ maxPort) (h3 : maxPort ≤ 65535) :
    (SetAllowedPortRange scope protocol minPort maxPort t).hr =
      HRESULT.S_OK ∧
    GetEffectiveAllowedPortRange scope protocol (some m0) (some M0)
        (SetAllowedPortRange scope protocol minPort maxPort t).port_configs =
      ⟨HRESULT.S_OK, some minPort, some maxPort,
        (SetAllowedPortRange scope protocol minPort maxPort
          t).port_configs⟩ := by
  have hv := isValidPortConfig_eq_true_of_range scope protocol minPort maxPort
    hs hp h1 h2 h3
  rw [setAllowedPortRange_of_valid _ _ _ _ _ hv]
  refine ⟨rfl, ?_⟩
  rw [getEffective_resolution_aux _ _ _ _ _ hs hp]
  simp [specEffectiveRange]

/-- C3 witness: writing `(2000, 2100)` for `(WebRtcOnly, Udp)` over a table
that configures Default, then reading the same key, yields `(2000, 2100)`. -/
theorem setAllowedPortRange_roundtrip_witness :
    (SetAllowedPortRange 1 0 2000 2100 defaultTable2000).hr =
      HRESULT.S_OK ∧
    GetEffectiveAllowedPortRange 1 0 (some 7) (some 8)
        (SetAllowedPortRange 1 0 2000 2100 defaultTable2000).port_configs =
      ⟨HRESULT.S_OK, some 2000, some 2100,
        (SetAllowedPortRange 1 0 2000 2100 defaultTable2000).port_configs⟩ :=
  setAllowedPortRange_roundtrip 1 0 2000 2100 7 8 defaultTable2000
    (by decide) rfl (by decide) (by decide) (by decide)

/-- C4: for every recognized (scope, protocol) and any prior table, the
sentinel write `(0, 0)` succeeds, and a read of the same key then returns
`(0, 0)`: the explicit sentinel entry is found in step 1 of resolution, so
the Default fallback is never consulted. -/
theorem setAllowedPortRange_sentinel_overrides_default
    (scope protocol m0 M0 : Int) (t : PortConfigs)
    (hs : scope = COREWEBVIEW2_ALLOWED_PORT_RANGE_SCOPE_DEFAULT ∨
          scope = COREWEBVIEW2_ALLOWED_PORT_RANGE_SCOPE_WEB_RTC)
    (hp : protocol = COREWEBVIEW2_TRANSPORT_PROTOCOL_KIND_UDP) :
    (SetAllowedPortRange scope protocol 0 0 t).hr = HRESULT.S_OK ∧
    GetEffectiveAllowedPortRange scope protocol (some m0) (some M0)
        (SetAllowedPortRange scope protocol 0 0 t).port_configs =
      ⟨HRESULT.S_OK, some 0, some 0,
        (SetAllowedPortRange scope protocol 0 0 t).port_configs⟩ := by
  have hv := isValidPortConfig_sentinel scope protocol hs hp
  rw [setAllowedPortRange_of_valid _ _ _ _ _ hv]
  refine ⟨rfl, ?_⟩
  rw [getEffective_resolution_aux _ _ _ _ _ hs hp]
  simp [specEffectiveRange]

/-- C4 witness: writing the sentinel for `(WebRtcOnly, Udp)` over a table
whose `(Default, Udp)` entry is the non-sentinel `(2000, 3000)`, then reading
`(WebRtcOnly, Udp)`, returns `(0, 0)` rather than the Default range. -/
theorem setAllowedPortRange_sentinel_overrides_default_witness :
    (SetAllowedPortRange 1 0 0 0 defaultTable2000).hr = HRESULT.S_OK ∧
    GetEffectiveAllowedPortRange 1 0 (some 7) (some 8)
        (SetAllowedPortRange 1 0 0 0 defaultTable2000).port_configs =
      ⟨HRESULT.S_OK, some 0, some 0,
        (SetAllowedPortRange 1 0 0 0 defaultTable2000).port_configs⟩ :=
  setAllowedPortRange_sentinel_overrides_default 1 0 7 8 defaultTable2000
    (by decide) rfl

/-- C5: whenever `SetAllowedPortRange` fails with `E_INVALIDARG`, the table is
completely unchanged, so a following read on the same key sees exactly what
it would have seen before the failing call. -/
theorem setAllowedPortRange_failure_frame
    (scope protocol minPort maxPort : Int) (t : PortConfigs)
    (h : (SetAllowedPortRange scope protocol minPort maxPort t).hr =
      HRESULT.E_INVALIDARG) :
    (SetAllowedPortRange scope protocol minPort maxPort t).port_configs = t ∧
    ∀ mp Mp, GetEffectiveAllowedPortRange scope protocol mp Mp
        (SetAllowedPortRange scope protocol minPort maxPort t).port_configs =
      GetEffectiveAllowedPortRange scope protocol mp Mp t := by
  cases hv : IsValidPortConfig scope protocol minPort maxPort with
  | true =>
    rw [setAllowedPortRange_of_valid _ _ _ _ _ hv] at h
    simp at h
  | false =>
    rw [setAllowedPortRange_of_invalid _ _ _ _ _ hv]
    exact ⟨rfl, fun mp Mp => rfl⟩

/-- C5 witness: the rejected write `minPort = 500` leaves the table equal to
the prior table, and a following read returns the prior value. -/
theorem setAllowedPortRange_failure_frame_witness :
    (SetAllowedPortRange 0 0 500 2000 defaultTable2000).port_configs =
      defaultTable2000 ∧
    GetEffectiveAllowedPortRange 0 0 (some 7) (some 8)
        (SetAllowedPortRange 0 0 500 2000 defaultTable2000).port_configs =
      GetEffectiveAllowedPortRange 0 0 (some 7) (some 8)
        defaultTable2000 := by
  have h := setAllowedPortRange_failure_frame 0 0 500 2000 defaultTable2000
    (by decide)
  exact ⟨h.1, h.2 (some 7) (some 8)⟩

/-- Every range stored in a table is the sentinel `(0, 0)` or satisfies
`1025 ≤ min ≤ max ≤ 65535` (spec section 3's invariant). -/
def TableInvariant (t : PortConfigs) : Prop :=
  ∀ k r, t k = some r →
    r = ((0 : Int), (0 : Int)) ∨ (1025 ≤ r.1 ∧ r.1 ≤ r.2 ∧ r.2 ≤ 65535)

/-- Tables reachable from the empty table by any sequence of the two
operations of the store. -/
inductive ReachableTable : PortConfigs → Prop where
  | empty : ReachableTable emptyPortConfigs
  | set (scope protocol minPort maxPort : Int) (t : PortConfigs) :
      ReachableTable t →
      ReachableTable
        (SetAllowedPortRange scope protocol minPort maxPort t).port_configs
  | get (scope protocol : Int) (minPort maxPort : Option Int)
      (t : PortConfigs) :
      ReachableTable t →
      ReachableTable
        (GetEffectiveAllowedPortRange scope protocol minPort maxPort
          t).port_configs

/-- C6: along every sequence of `SetAllowedPortRange` and
`GetEffectiveAllowedPortRange` operations started from the empty table, every
stored range is the sentinel `(0, 0)` or satisfies
`1025 ≤ min ≤ max ≤ 65535`. -/
theorem reachableTable_invariant (t : PortConfigs) (h : ReachableTable t) :
    TableInvariant t := by
  induction h with
  | empty =>
    intro k r hk
    simp [emptyPortConfigs] at hk
  | set scope protocol minPort maxPort t ht ih =>
    cases hv : IsValidPortConfig scope protocol minPort maxPort with
    | false =>
      rw [setAllowedPortRange_of_invalid _ _ _ _ _ hv]
      exact ih
    | true =>
      rw [setAllowedPortRange_of_valid _ _ _ _ _ hv]
      intro k r hk
      dsimp only at hk
      by_cases hkey : k = (scope, protocol)
      · subst hkey
        rw [if_pos rfl] at hk
        obtain rfl : r = (minPort, maxPort) := (Option.some.inj hk).symm
        exact isValidPortConfig_range_ok _ _ _ _ hv
      · rw [if_neg hkey] at hk
        exact ih k r hk
  | get scope protocol minPort maxPort t ht ih =>
    rw [getEffective_pure_aux]
    exact ih

/-- C6 witness: the table obtained from the empty table by one accepted write
satisfies the invariant. -/
theorem reachableTable_invariant_witness :
    TableInvariant
      (SetAllowedPortRange 0 0 2000 3000 emptyPortConfigs).port_configs :=
  reachableTable_invariant _
    (ReachableTable.set 0 0 2000 3000 emptyPortConfigs ReachableTable.empty)

/-- C7: a successful `SetAllowedPortRange` inserts or overwrites exactly the
entry for `(scope, protocol)` with `(minPort, maxPort)` and leaves every
other key's mapping unchanged. -/
theorem setAllowedPortRange_success_frame
    (scope protocol minPort maxPort : Int) (t : PortConfigs)
    (h : (SetAllowedPortRange scope protocol minPort maxPort t).hr =
      HRESULT.S_OK) :
    (SetAllowedPortRange scope protocol minPort maxPort t).port_configs
        (scope, protocol) = some (minPort, maxPort) ∧
    ∀ k, k ≠ (scope, protocol) →
      (SetAllowedPortRange scope protocol minPort maxPort t).port_configs k =
        t k := by
  cases hv : IsValidPortConfig scope protocol minPort maxPort with
  | false =>
    rw [setAllowedPortRange_of_invalid _ _ _ _ _ hv] at h
    simp at h
  | true =>
    rw [setAllowedPortRange_of_valid _ _ _ _ _ hv]
    exact ⟨by simp, fun k hk => by simp [hk]⟩

/-- C7 witness: writing `(1025, 65535)` to the Default scope stores it at the
Default key and leaves the stored WebRtcOnly entry untouched. -/
theorem setAllowedPortRange_success_frame_witness :
    (SetAllowedPortRange 0 0 1025 65535 webRtcTable4000).port_configs
        (0, 0) = some (1025, 65535) ∧
    (SetAllowedPortRange 0 0 1025 65535 webRtcTable4000).port_configs
        (1, 0) = webRtcTable4000 (1, 0) := by
  have h := setAllowedPortRange_success_frame 0 0 1025 65535 webRtcTable4000
    (by decide)
  exact ⟨h.1, h.2 (1, 0) (by decide)⟩

/-- C10: whenever `GetEffectiveAllowedPortRange` fails with `E_INVALIDARG`
(unrecognized scope, unrecognized protocol, or a null output destination),
neither output destination is written: both hold their prior values. -/
theorem getEffectiveAllowedPortRange_failure_no_write (scope protocol : Int)
    (minPort maxPort : Option Int) (t : PortConfigs)
    (h : (GetEffectiveAllowedPortRange scope protocol minPort maxPort t).hr =
      HRESULT.E_INVALIDARG) :
    (GetEffectiveAllowedPortRange scope protocol minPort maxPort t).minPort =
      minPort ∧
    (GetEffectiveAllowedPortRange scope protocol minPort maxPort t).maxPort =
      maxPort := by
  unfold GetEffectiveAllowedPortRange at h ⊢
  split_ifs at h ⊢ with h1 h2 h3
  · exact ⟨rfl, rfl⟩
  · exact ⟨rfl, rfl⟩
  · exact ⟨rfl, rfl⟩
  · exfalso
    cases h4 : t (MakePortConfigKey scope protocol) with
    | some r =>
      rw [h4] at h
      simp at h
    | none =>
      cases h5 : t (MakePortConfigKey
          COREWEBVIEW2_ALLOWED_PORT_RANGE_SCOPE_DEFAULT protocol) with
      | some r =>
        rw [h4, h5] at h
        simp at h
      | none =>
        rw [h4, h5] at h
        simp at h

/-- C10 witness: the failing query with unrecognized scope `999` leaves both
output destinations holding their prior values `7` and `8`. -/
theorem getEffectiveAllowedPortRange_failure_no_write_witness :
    (GetEffectiveAllowedPortRange 999 0 (some 7) (some 8)
      emptyPortConfigs).minPort = some 7 ∧
    (GetEffectiveAllowedPortRange 999 0 (some 7) (some 8)
      emptyPortConfigs).maxPort = some 8 :=
  getEffectiveAllowedPortRange_failure_no_write 999 0 (some 7) (some 8)
    emptyPortConfigs (by decide)

end WebView2
